import Mathlib

/-!
Verification of the session user-profile store and tool functions of
`src/agent.py` (a voice-agent configuration repository).

Embedding conventions:
* `uuid.uuid4()` is modelled as an injective fresh-identifier supply: a
  natural-number counter threaded through every call that draws an id.
* The dynamically-typed `self.age` is embedded as `Option Int`: the
  dataclass annotation says `int`, but `get_user_info` guards it with
  `self.age is not None`, so the runtime value space is `int | None`.
  The default `field(default_factory=int)` yields the integer `0`, hence
  `some 0` in the initial state.
* Python truthiness of a string (`if self.name`) is non-emptiness.
* Each method returns its result together with the (possibly updated)
  session state and supply counter, making mutation explicit.
* The opaque `JobContext` held by the session state is a type parameter.
-/

/-- Embeds the Python dataclass `UserInfo` (id, name, age : int | None). -/
structure UserInfo where
  id : Nat
  name : String
  age : Option Int
  deriving Repr, DecidableEq

/-- Embeds the Python dataclass `UserData`: the per-session state with an
optional job context, a name defaulting to `str()` i.e. `""`, and an age
defaulting to `int()` i.e. the integer `0` (embedded as `some 0`). -/
structure UserData (Ctx : Type) where
  ctx : Option Ctx
  name : String
  age : Option Int

variable {Ctx : Type}

/-- The state of a freshly constructed `UserData(ctx=c)`: the dataclass
defaults give `name = ""` and `age = 0`. -/
def UserData.init (c : Option Ctx) : UserData Ctx :=
  { ctx := c, name := "", age := some 0 }

/-- Embeds `UserData.set_user_info`: draws a fresh id, builds a `UserInfo`
with the given name and age, overwrites `self.name` and `self.age`, and
returns the record (with the updated state and supply). -/
def set_user_info (s : UserData Ctx) (name : String) (age : Int) (sup : Nat) :
    UserInfo × UserData Ctx × Nat :=
  ({ id := sup, name := name, age := some age },
   { s with name := name, age := some age },
   sup + 1)

/-- Embeds `UserData.get_user_info`: if `self.name` is truthy (non-empty)
and `self.age is not None`, returns a freshly-identified snapshot of the
stored name and age; otherwise returns `None`. The state is unchanged. -/
def get_user_info (s : UserData Ctx) (sup : Nat) :
    Option UserInfo × UserData Ctx × Nat :=
  if s.name ≠ "" ∧ s.age ≠ none then
    (some { id := sup, name := s.name, age := s.age }, s, sup + 1)
  else
    (none, s, sup)

/-- Embeds the tool `Assistant.lookup_weather`: ignores the location and
returns the fixed canned string (the logging call has no further effect on
the returned value or the session state). -/
def lookup_weather (location : String) : String :=
  "sunny with a temperature of 70 degrees."

/-- Embeds the tool `Assistant.set_user_data`: calls `set_user_info` on the
session state (discarding the returned record, as the Python code does) and
returns the confirmation f-string interpolating `name` and `age` verbatim. -/
def set_user_data (s : UserData Ctx) (name : String) (age : Int) (sup : Nat) :
    String × UserData Ctx × Nat :=
  let r := set_user_info s name age sup
  ("Okay, now I will remember your name is " ++ name ++ " and you are " ++
     toString age ++ " year old.",
   r.2.1, r.2.2)

/-- The Python `str` conversion on an `int | None` value, as used by the
f-string in `get_user_data` (under the presence check it is always an int). -/
def pyStr : Option Int → String
  | some a => toString a
  | none => "None"

/-- Embeds the tool `Assistant.get_user_data`: calls `get_user_info`; if a
record came back, formats its name and age into the reply f-string,
otherwise returns the fixed introduce-yourself string. -/
def get_user_data (s : UserData Ctx) (sup : Nat) :
    String × UserData Ctx × Nat :=
  let r := get_user_info s sup
  match r.1 with
  | some u =>
      ("Your name: " ++ u.name ++ " and your age: " ++ pyStr u.age,
       r.2.1, r.2.2)
  | none =>
      ("I don't know your name. Please introduce your name and your age",
       r.2.1, r.2.2)

/-- The session states reachable from a fresh `UserData`: the constructor
state, followed by any number of `set_user_info` / `get_user_info` calls
(the only code that touches the state). -/
inductive Reachable : UserData Ctx → Prop
  | init (c : Option Ctx) : Reachable (UserData.init c)
  | set {s : UserData Ctx} (n : String) (a : Int) (sup : Nat) :
      Reachable s → Reachable (set_user_info s n a sup).2.1
  | get {s : UserData Ctx} (sup : Nat) :
      Reachable s → Reachable (get_user_info s sup).2.1

/-- One profile-store call in a session trace. -/
inductive Op where
  | set (name : String) (age : Int)
  | get

/-- Runs one call, returning the new state, the new supply, and the list of
`UserInfo` records handed out (one for a set, one for a successful get). -/
def runOp (s : UserData Ctx) (sup : Nat) : Op → UserData Ctx × Nat × List UserInfo
  | Op.set n a =>
      let r := set_user_info s n a sup
      (r.2.1, r.2.2, [r.1])
  | Op.get =>
      let r := get_user_info s sup
      match r.1 with
      | some u => (r.2.1, r.2.2, [u])
      | none => (r.2.1, r.2.2, [])

/-- Runs a trace of calls, accumulating every `UserInfo` record returned. -/
def runOps (s : UserData Ctx) (sup : Nat) : List Op → UserData Ctx × Nat × List UserInfo
  | [] => (s, sup, [])
  | op :: rest =>
      let r := runOp s sup op
      let r2 := runOps r.1 r.2.1 rest
      (r2.1, r2.2.1, r.2.2 ++ r2.2.2)

/-- Whether the first list occurs at the front of the second. -/
def atFront : List Char → List Char → Bool
  | [], _ => true
  | _ :: _, [] => false
  | a :: as, b :: bs => a == b && atFront as bs

/-- Whether the first list occurs anywhere inside the second. -/
def occursIn (needle : List Char) : List Char → Bool
  | [] => atFront needle []
  | b :: bs => atFront needle (b :: bs) || occursIn needle bs

/-! Helper lemmas shared by the claim theorems. -/

/-- When the presence check passes, `get_user_info` returns a fresh snapshot. -/
theorem get_user_info_pos {s : UserData Ctx} (sup : Nat)
    (h : s.name ≠ "" ∧ s.age ≠ none) :
    get_user_info s sup = (some { id := sup, name := s.name, age := s.age }, s, sup + 1) := by
  simp [get_user_info, h]

/-- When the presence check fails, `get_user_info` returns none. -/
theorem get_user_info_neg {s : UserData Ctx} (sup : Nat)
    (h : ¬(s.name ≠ "" ∧ s.age ≠ none)) :
    get_user_info s sup = (none, s, sup) := by
  simp only [get_user_info, if_neg h]

/-- The method `get_user_info` never changes the session state. -/
theorem get_user_info_state (s : UserData Ctx) (sup : Nat) :
    (get_user_info s sup).2.1 = s := by
  unfold get_user_info
  split <;> rfl

/-- The supply counter never decreases across one call. -/
theorem runOp_sup_le (s : UserData Ctx) (sup : Nat) (op : Op) :
    sup ≤ (runOp s sup op).2.1 := by
  cases op with
  | set n a => simp [runOp, set_user_info]
  | get =>
      by_cases h : s.name ≠ "" ∧ s.age ≠ none
      · simp [runOp, get_user_info_pos sup h]
      · simp [runOp, get_user_info_neg sup h]

/-- Every record handed out by one call has its id in the supply window used
by that call. -/
theorem runOp_mem {s : UserData Ctx} {sup : Nat} {op : Op} {u : UserInfo}
    (hu : u ∈ (runOp s sup op).2.2) :
    sup ≤ u.id ∧ u.id < (runOp s sup op).2.1 := by
  cases op with
  | set n a =>
      simp [runOp, set_user_info] at hu ⊢
      simp [hu]
  | get =>
      by_cases h : s.name ≠ "" ∧ s.age ≠ none
      · simp [runOp, get_user_info_pos sup h] at hu ⊢
        simp [hu]
      · simp [runOp, get_user_info_neg sup h] at hu

/-- The supply counter never decreases across a trace. -/
theorem runOps_sup_le (s : UserData Ctx) (sup : Nat) (ops : List Op) :
    sup ≤ (runOps s sup ops).2.1 := by
  induction ops generalizing s sup with
  | nil => simp [runOps]
  | cons op rest ih =>
      have h1 := runOp_sup_le s sup op
      have h2 := ih (runOp s sup op).1 (runOp s sup op).2.1
      simp only [runOps]
      omega

/-- Every record handed out during a trace has an id at least the starting
supply value. -/
theorem runOps_mem_le {s : UserData Ctx} {sup : Nat} {ops : List Op} {u : UserInfo}
    (hu : u ∈ (runOps s sup ops).2.2) : sup ≤ u.id := by
  induction ops generalizing s sup with
  | nil => simp [runOps] at hu
  | cons op rest ih =>
      simp only [runOps, List.mem_append] at hu
      cases hu with
      | inl h => exact (runOp_mem h).1
      | inr h =>
          have h1 := runOp_sup_le s sup op
          have h2 := ih h
          omega

/-- The ids of the records handed out during a trace are strictly
increasing in order of issue. -/
theorem runOps_ids_increasing (s : UserData Ctx) (sup : Nat) (ops : List Op) :
    ((runOps s sup ops).2.2).Pairwise (fun a b => a.id < b.id) := by
  induction ops generalizing s sup with
  | nil => simp [runOps]
  | cons op rest ih =>
      simp only [runOps]
      rw [List.pairwise_append]
      refine ⟨?_, ih _ _, ?_⟩
      · cases op with
        | set n a => simp [runOp, set_user_info]
        | get =>
            by_cases h : s.name ≠ "" ∧ s.age ≠ none
            · simp [runOp, get_user_info_pos sup h]
            · simp [runOp, get_user_info_neg sup h]
      · intro a ha b hb
        have h1 := (runOp_mem ha).2
        have h2 := runOps_mem_le hb
        omega

/-! The claim theorems. -/

/-- C1: for every non-empty name `n` and every age `a` (including 0),
calling `set_user_info n a` and then `get_user_info` on the resulting
session state returns a present profile whose name is exactly `n` and whose
age is exactly `a`. -/
theorem set_then_get (s : UserData Ctx) (n : String) (a : Int) (sup sup2 : Nat)
    (h : n ≠ "") :
    (get_user_info (set_user_info s n a sup).2.1 sup2).1 =
      some { id := sup2, name := n, age := some a } := by
  simp [set_user_info, get_user_info, h]

/-- Witness for C1 at a concrete input, with age 0. -/
theorem set_then_get_witness :
    (get_user_info (set_user_info ((UserData.init none : UserData Unit)) "Alice" 0 0).2.1 1).1 =
      some { id := 1, name := "Alice", age := some 0 } :=
  set_then_get (UserData.init none) "Alice" 0 0 1 (by decide)

/-- C2: on a freshly created session state (name defaulted to `""`, age
defaulted to `0`), before any set, `get_user_info` returns none and the
`get_user_data` tool returns the fixed introduce-yourself string. -/
theorem get_before_set (c : Option Ctx) (sup sup2 : Nat) :
    (get_user_info (UserData.init c) sup).1 = none ∧
      (get_user_data (UserData.init c) sup2).1 =
        "I don't know your name. Please introduce your name and your age" := by
  constructor <;> simp [UserData.init, get_user_info, get_user_data]

/-- C3: set is last-write-wins: after `set_user_info n1 a1` followed by
`set_user_info n2 a2` the session state is exactly the state produced by
the second call alone, with name `n2` and age `a2` unconditionally; hence
any subsequent `get_user_info` reflects only `n2` and `a2`. -/
theorem set_twice_overwrites (s : UserData Ctx) (n1 n2 : String) (a1 a2 : Int)
    (sup1 sup2 : Nat) :
    (set_user_info (set_user_info s n1 a1 sup1).2.1 n2 a2 sup2).2.1 =
        (set_user_info s n2 a2 sup2).2.1 ∧
      ((set_user_info (set_user_info s n1 a1 sup1).2.1 n2 a2 sup2).2.1).name = n2 ∧
      ((set_user_info (set_user_info s n1 a1 sup1).2.1 n2 a2 sup2).2.1).age = some a2 :=
  ⟨rfl, rfl, rfl⟩

/-- C4: `lookup_weather` is a constant function of its location argument:
for every location string, including `""`, it returns the same fixed canned
string, and that result never contains the word "unavailable". -/
theorem lookup_weather_constant (location : String) :
    lookup_weather location = "sunny with a temperature of 70 degrees." ∧
      occursIn "unavailable".data (lookup_weather location).data = false := by
  refine ⟨rfl, ?_⟩
  show occursIn "unavailable".data "sunny with a temperature of 70 degrees.".data = false
  decide

/-- C5: for every name and age, the `set_user_data` tool returns the
confirmation string interpolating the inputs verbatim, and it updates the
session state and supply exactly as the underlying `set_user_info` call
does (it has no failure branch). -/
theorem set_user_data_spec (s : UserData Ctx) (name : String) (age : Int) (sup : Nat) :
    (set_user_data s name age sup).1 =
        "Okay, now I will remember your name is " ++ name ++ " and you are " ++
          toString age ++ " year old." ∧
      (set_user_data s name age sup).2.1 = (set_user_info s name age sup).2.1 ∧
      (set_user_data s name age sup).2.2 = (set_user_info s name age sup).2.2 :=
  ⟨rfl, rfl, rfl⟩

/-- C6: the `get_user_data` tool returns the formatted name-and-age string
exactly when `get_user_info` returns a present profile, and otherwise the
fixed introduce-yourself string; these are its only two possible results. -/
theorem get_user_data_cases (s : UserData Ctx) (sup : Nat) :
    (∃ u, (get_user_info s sup).1 = some u ∧
        (get_user_data s sup).1 =
          "Your name: " ++ u.name ++ " and your age: " ++ pyStr u.age) ∨
      ((get_user_info s sup).1 = none ∧
        (get_user_data s sup).1 =
          "I don't know your name. Please introduce your name and your age") := by
  cases h : (get_user_info s sup).1 with
  | some u => exact Or.inl ⟨u, rfl, by simp [get_user_data, h]⟩
  | none => exact Or.inr ⟨rfl, by simp [get_user_data, h]⟩

/-- C7: every `UserInfo` record returned by `set_user_info` or by a
successful `get_user_info` over a session trace carries a fresh identifier
distinct from the identifier of every other record returned in the trace,
even when the stored name and age never change (the UUID source is the
injective fresh-identifier supply threaded through `runOps`). -/
theorem returned_ids_distinct (s : UserData Ctx) (sup : Nat) (ops : List Op) :
    ((runOps s sup ops).2.2).Pairwise (fun a b => a.id ≠ b.id) :=
  (runOps_ids_increasing s sup ops).imp (fun h => Nat.ne_of_lt h)

/-- C8: in every reachable session state the age field holds an integer and
is never absent, so the conjunct `self.age is not None` of the presence
check in `get_user_info` is always true and the whole check is equivalent
to the stored name being non-empty. -/
theorem presence_check_age_vacuous (s : UserData Ctx) (h : Reachable s) :
    (∃ a, s.age = some a) ∧
      ((s.name ≠ "" ∧ s.age ≠ none) ↔ s.name ≠ "") := by
  have hage : ∃ a, s.age = some a := by
    induction h with
    | init c => exact ⟨0, rfl⟩
    | set n a sup _ _ => exact ⟨a, rfl⟩
    | get sup _ ih => rw [get_user_info_state]; exact ih
  obtain ⟨a, ha⟩ := hage
  exact ⟨⟨a, ha⟩, ⟨fun hc => hc.1, fun hn => ⟨hn, by simp [ha]⟩⟩⟩

/-- Witness for C8 at the initial session state. -/
theorem presence_check_age_vacuous_witness :
    (∃ a, ((UserData.init none : UserData Unit)).age = some a) ∧
      ((((UserData.init none : UserData Unit)).name ≠ "" ∧
          ((UserData.init none : UserData Unit)).age ≠ none) ↔
        ((UserData.init none : UserData Unit)).name ≠ "") :=
  presence_check_age_vacuous (UserData.init none) (Reachable.init none)

/-- C9: frame property: `set_user_info` leaves the `ctx` field of the
session state unchanged, and `get_user_info` and `get_user_data` leave the
whole session state unchanged. -/
theorem frame_properties (s : UserData Ctx) (n : String) (a : Int)
    (sup sup2 sup3 : Nat) :
    ((set_user_info s n a sup).2.1).ctx = s.ctx ∧
      (get_user_info s sup2).2.1 = s ∧
      (get_user_data s sup3).2.1 = s := by
  refine ⟨rfl, get_user_info_state s sup2, ?_⟩
  cases h : (get_user_info s sup3).1 <;>
    simp [get_user_data, h, get_user_info_state]

/-- C10: calling `set_user_data` with the empty-string name succeeds and
returns the confirmation string, yet on the resulting state `get_user_info`
returns none and `get_user_data` returns the introduce-yourself string: the
profile still reads as never set. -/
theorem set_empty_name_still_absent (s : UserData Ctx) (a : Int)
    (sup sup2 sup3 : Nat) :
    (set_user_data s "" a sup).1 =
        "Okay, now I will remember your name is " ++ "" ++ " and you are " ++
          toString a ++ " year old." ∧
      (get_user_info (set_user_data s "" a sup).2.1 sup2).1 = none ∧
      (get_user_data (set_user_data s "" a sup).2.1 sup3).1 =
        "I don't know your name. Please introduce your name and your age" := by
  refine ⟨rfl, ?_, ?_⟩ <;>
    simp [set_user_data, set_user_info, get_user_info, get_user_data]
